import Mathlib

/-!
Shallow embedding of the LevelSetPy core (grids, WENO5 spatial derivative,
Lax-Friedrichs term, HJI solver driver, projection) over exact rationals.
Arrays are flattened `List ℚ`; elementwise numpy operations become `List.map`
and `List.zipWith`; Python exceptions (`error`, raised `ValueError`,
`AttributeError` on a missing bundle field) become `Except.error` / `Option.none`.
-/

namespace LevelSetPy

/-! ## WENO5 epsilon selection and nonlinear weighting
    (src/SpatialDerivative/upwind_first_weno5a.py) -/

/-- Python `max` over a nonempty sequence; `none` on an empty one
(where Python raises `ValueError`). -/
def pymax : List ℚ → Option ℚ
  | [] => none
  | x :: xs => some (xs.foldl max x)

/-- The epsilon selector of `upwindFirstWENO5a`: the source assigns
the `constant` method and immediately reassigns `maxOverGrid` (lines 57-58), so the
effective default is the latter. -/
def epsilonCalculationMethod : String :=
  let m := "constant"
  let m := "maxOverGrid"
  m

/-- The epsilon computation of `upwindFirstWENO5a` (lines 137-154), returning
the pair `(epsilonL, epsilonR)`.  In the `maxOverGrid` branch the source sets
`epsilonL = 1e-6 * max(D1**2) + 1e-99` and `epsilonR = epsilonL`.  The
`maxOverNeighbors` branch raises `TypeError` in the source (it calls the
array `D1squared(...)` instead of indexing it), and an unknown method calls
`error`; both are modelled as `none`. -/
def wenoEpsilons (method : String) (D1 : List ℚ) : Option (ℚ × ℚ) :=
  if method = "constant" then
    some (1 / 1000000, 1 / 1000000)
  else if method = "maxOverGrid" then
    match pymax (D1.map (fun x => x ^ 2)) with
    | none => none
    | some m =>
      let e := (1 / 1000000) * m + 1 / 10 ^ 99
      some (e, e)
  else
    none

/-- Definition of `weightWENO` (lines 164-183): nonlinear WENO weighting of the three
candidate ENO approximations `d` with smoothness indicators `s`, linear
weights `w` and regularisation `epsilon`, at one grid cell. -/
def weightWENO (d0 d1 d2 s0 s1 s2 w0 w1 w2 epsilon : ℚ) : ℚ :=
  let alpha1 := w0 / (s0 + epsilon) ^ 2
  let alpha2 := w1 / (s1 + epsilon) ^ 2
  let alpha3 := w2 / (s2 + epsilon) ^ 2
  let denominator := alpha1 + alpha2 + alpha3
  (alpha1 * d0 + alpha2 * d1 + alpha3 * d2) / denominator

/-- Linear weights for the left-biased WENO5 combination (line 121). -/
def weightL : List ℚ := [1/10, 6/10, 3/10]

/-- Linear weights for the right-biased WENO5 combination (line 134). -/
def weightR : List ℚ := [3/10, 6/10, 1/10]

/-- Left-biased WENO5 derivative at one cell: `weightWENO(dL, smoothL,
weightL, epsilonL)` (line 158). -/
def wenoDerivL (d0 d1 d2 s0 s1 s2 epsilon : ℚ) : ℚ :=
  weightWENO d0 d1 d2 s0 s1 s2 (weightL.headI) (weightL.tail.headI)
    (weightL.tail.tail.headI) epsilon

/-- Right-biased WENO5 derivative at one cell: `weightWENO(dR, smoothR,
weightR, epsilonR)` (line 159). -/
def wenoDerivR (d0 d1 d2 s0 s1 s2 epsilon : ℚ) : ℚ :=
  weightWENO d0 d1 d2 s0 s1 s2 (weightR.headI) (weightR.tail.headI)
    (weightR.tail.tail.headI) epsilon

/-! ## HJI solver driver fragments (src/ValueFuncs/hji_solver.py) -/

/-- The `minVOverTime` combination of `HJIPDE_solve` (line 648):
`y = np.minimum(y, yLast)` elementwise. -/
def minVOverTimeCombine (y yLast : List ℚ) : List ℚ :=
  List.zipWith min y yLast

/-- One inner step of the `HJIPDE_solve` while-loop under
`compMethod = minVOverTime` (lines 605-648): save `yLast = y` immediately
before the integrator call, integrate, then take the elementwise minimum
with the saved value. -/
def hjiInnerStepMinV (integrate : List ℚ → List ℚ) (y : List ℚ) : List ℚ :=
  let yLast := y
  let y2 := integrate y
  minVOverTimeCombine y2 yLast

/-- The head of `HJIPDE_solve` (lines 224-226): a `tau` with fewer than two
elements is rejected with a specification error before the integrator is ever
invoked; otherwise the macro-step loop runs one integrator call per remaining
element of `tau`, accumulating the state history. -/
def HJIPDE_solve (integratorFunc : ℚ → List ℚ → List ℚ)
    (data0 : List ℚ) (tau : List ℚ) : Except String (List (List ℚ)) :=
  if tau.length < 2 then
    Except.error ("Time vector must have at least two elements!")
  else
    Except.ok
      ((tau.tail.foldl
        (fun acc t => (integratorFunc t acc.headI) :: acc) [data0]).reverse)

/-! ## Lax-Friedrichs term (src/ExplicitIntegration/Term/term_lax_friedrich.py) -/

/-- A value that is either a plain array/bundle or a Python cell vector
(list) of them, as tested by `iscell`. -/
inductive CellOr (α : Type) where
  | single : α → CellOr α
  | cell : List α → CellOr α

/-- The part of the grid structure `termLaxFriedrichs` reads: the dimension
count driving the per-axis loop (the reshape to `grid.shape` is the identity
on flattened contents). -/
structure LFGrid where
  dim : ℕ

/-- The scheme bundle consumed by `termLaxFriedrichs`.  `E` is the type of
the user-visible state that `hamFunc` may thread through the bundle (in the
source the whole bundle is passed and possibly returned; here the functions
are fixed fields and `extra` is the mutable remainder).  `hamFunc` returning
`(ham, some e)` models the tuple-returning convention, `(ham, none)` the
plain-array convention. -/
structure LFScheme (E : Type) where
  grid : LFGrid
  derivFunc : LFGrid → List ℚ → ℕ → List ℚ × List ℚ
  hamFunc : ℚ → List ℚ → List (List ℚ) → E → List ℚ × Option E
  dissFunc : ℚ → List ℚ → List (List ℚ) → List (List ℚ) → E → List ℚ × ℚ
  extra : E

/-- The per-call computation of `termLaxFriedrichs` (lines 100-135) on the
unwrapped data array and bundle: for each axis the one-sided derivatives
come from `derivFunc` and `derivC = 0.5*(derivL + derivR)`; the analytic
Hamiltonian is evaluated at `derivC`; the dissipation and CFL step bound
come from `dissFunc` at `(derivL, derivR)` on the possibly-updated bundle;
the result is `ydot = -(ham - diss)` flattened, `stepBound`, and the bundle
update returned by `hamFunc` (if any). -/
def termLFCore {E : Type} (t : ℚ) (data : List ℚ) (thisSchemeData : LFScheme E) :
    (List ℚ × ℚ) × Option (LFScheme E) :=
  let grid := thisSchemeData.grid
  let derivs := (List.range grid.dim).map
    (fun i => thisSchemeData.derivFunc grid data i)
  let derivL := derivs.map Prod.fst
  let derivR := derivs.map Prod.snd
  let derivC := derivs.map
    (fun p => List.zipWith (fun a b => (1/2 : ℚ) * (a + b)) p.1 p.2)
  let hres := thisSchemeData.hamFunc t data derivC thisSchemeData.extra
  let ham := hres.1
  -- When `hamFunc` returns a tuple, the updated bundle replaces
  -- `thisSchemeData`; only the `extra` field can change, so `dissFunc` is
  -- the original function applied to the possibly-updated `extra`.
  let updOpt := hres.2.map (fun e2 => { thisSchemeData with extra := e2 })
  let extra2 := hres.2.getD thisSchemeData.extra
  let dres := thisSchemeData.dissFunc t data derivL derivR extra2
  let diss := dres.1
  let stepBound := dres.2
  let delta := List.zipWith (fun a b => a - b) ham diss
  let ydot := delta.map (fun x => -x)
  ((ydot, stepBound), updOpt)

/-- Definition of `termLaxFriedrichs` proper: unwrap cell vectors (keeping only the first
element as the source does), run the core computation, and store a
tuple-returned bundle back into `schemeData` (into its first slot in the
cell case, line 119). -/
def termLaxFriedrichs {E : Type} (t : ℚ) (y : CellOr (List ℚ))
    (schemeData : CellOr (LFScheme E)) :
    Option (List ℚ × ℚ × CellOr (LFScheme E)) :=
  let thisOpt : Option (LFScheme E) :=
    match schemeData with
    | .single s => some s
    | .cell l => l.head?
  match thisOpt with
  | none => none
  | some thisSchemeData =>
    let dataOpt : Option (List ℚ) :=
      match y with
      | .single v => some v
      | .cell l => l.head?
    match dataOpt with
    | none => none
    | some data =>
      let r := termLFCore t data thisSchemeData
      let schemeOut : CellOr (LFScheme E) :=
        match r.2 with
        | some s2 =>
          (match schemeData with
            | .single _ => .single s2
            | .cell l => .cell (s2 :: l.tail))
        | none => schemeData
      some (r.1.1, r.1.2, schemeOut)

/-! ## Grid processing (src/Grids/process_grid.py) -/

/-- A field of a grid specification that MATLAB/numpy style code accepts as
either a scalar (replicated `dim` times) or a column vector. -/
inductive ScalVec (α : Type) where
  | scal : α → ScalVec α
  | vec : List α → ScalVec α
  deriving DecidableEq, Repr

/-- A partial grid specification (the `Bundle` input form of `processGrid`),
restricted to the fields the claims exercise: `vs`, `xs`, `axis`, `shape`,
`bdry`, `bdryData` absent (when absent those sections of the source only
assign defaults and cannot raise). -/
structure GridSpec where
  dim : Option ℤ
  min : Option (ScalVec ℚ)
  max : Option (ScalVec ℚ)
  N : Option (ScalVec ℤ)
  dx : Option (ScalVec ℚ)
  deriving DecidableEq, Repr

/-- The fully processed grid returned by `processGrid` (numeric fields). -/
structure GridOut where
  dim : ℤ
  min : List ℚ
  max : List ℚ
  N : List ℤ
  dx : List ℚ
  vs : List (List ℚ)
  shape : List ℤ
  deriving DecidableEq, Repr

/-- Model of `cp.linspace(a, b, num=n)`: `n` evenly spaced points from `a` to `b`. -/
def linspace (a b : ℚ) (n : ℕ) : List ℚ :=
  (List.range n).map (fun k => a + (b - a) * k / (n - 1))

/-- Normalise a scalar-or-vector field the way `processGrid` does when the
column-length check fails for a scalar: replicate it `dim` times.  A vector
of the right length is kept; a vector of the wrong length yields the given
error. -/
def normField {α : Type} (f : ScalVec α) (dim : ℕ) (msg : String) :
    Except String (List α) :=
  match f with
  | .vec l => if l.length = dim then Except.ok l else Except.error msg
  | .scal q => Except.ok (List.replicate dim q)

/-- Definition of `processGrid(gridIn)` (lines 102-304) for a structure input without
`vs`/`xs`/`axis`/`shape`/`bdry`/`bdryData`.  Mirrored faithfully, including:
the `max` default uses `defaultMin` (line 155); the dimension check rejects
only `dim < 0` (line 133) and `dim > 5` merely warns; a `dx` given as a
correctly sized column vector hits the misplaced `else: error(...)`
(lines 177-181) while a wrongly sized non-scalar `dx` is kept silently; and
when only `dx` is supplied, `N` is never derived, so building `vs`
(line 206) raises `AttributeError` on the missing `N` field. -/
def processGrid (g : GridSpec) : Except String GridOut := do
  let dim ← match g.dim with
    | none => Except.error ("Grid structure must contain dimension")
    | some d =>
      if d < 0 then Except.error ("Grid dimension must be positive")
      else Except.ok d
  let dimN := dim.toNat
  let gmin ← match g.min with
    | some f =>
        normField f dimN
          ("min field is not column vector of length dim or a scalar")
    | none => Except.ok (List.replicate dimN (0 : ℚ))
  let gmax ← match g.max with
    | some f =>
        normField f dimN
          ("max field is not column vector of length dim or a scalar")
    | none => Except.ok (List.replicate dimN (0 : ℚ))
  if (List.zipWith (fun mx mn => decide (mx ≤ mn)) gmax gmin).any id then
    Except.error ("max bound must be strictly greater than min bound in all dimensions")
  let gN1 : Option (List ℤ) ← match g.N with
    | some f =>
      let raw : List ℤ := match f with | .scal q => [q] | .vec l => l
      if raw.any (fun n => decide (n ≤ 0)) then
        Except.error ("number of grid cells must be strictly positive")
      else
        (match f with
          | .vec l =>
            if l.length = dimN then Except.ok (some l)
            else Except.error ("N field is not column vector of length dim or a scalar")
          | .scal q => Except.ok (some (List.replicate dimN q)))
    | none => Except.ok none
  let state : Option (List ℤ) × List ℚ ← match g.dx with
    | some f =>
      let raw : List ℚ := match f with | .scal q => [q] | .vec l => l
      if raw.any (fun d => decide (d ≤ 0)) then
        Except.error ("grid cell size dx must be strictly positive")
      else
        (match f with
          | .vec l =>
            if l.length = dimN then
              Except.error ("dx field is not column vector of length dim or a scalar")
            else
              Except.ok (gN1, l)
          | .scal q => Except.ok (gN1, List.replicate dimN q))
    | none =>
      match gN1 with
      | some nvals =>
        Except.ok (gN1,
          List.zipWith (fun d n => d / ((n : ℚ) - 1))
            (List.zipWith (fun mx mn => mx - mn) gmax gmin) nvals)
      | none =>
        let nvals := List.replicate dimN (101 : ℤ)
        Except.ok (some nvals,
          List.zipWith (fun d n => d / ((n : ℚ) - 1))
            (List.zipWith (fun mx mn => mx - mn) gmax gmin) nvals)
  let gdx := state.2
  let nvals ← match state.1 with
    | some nvals => Except.ok nvals
    | none => Except.error ("AttributeError: Bundle object has no attribute N")
  let vs := (List.range dimN).map
    (fun i => linspace (gmin.getD i 0) (gmax.getD i 0) (nvals.getD i 0).toNat)
  if (List.zipWith (fun n v => decide (n ≠ (v.length : ℤ))) nvals vs).any id then
    Except.error ("Inconsistent grid size in dimension")
  let nFinal := vs.map (fun v => (v.length : ℤ))
  let shape := if dim = 1 then nFinal ++ [1] else nFinal
  Except.ok { dim := dim, min := gmin, max := gmax, N := nFinal,
              dx := gdx, vs := vs, shape := shape }

/-! ## Projection (src/ValueFuncs/data_proj.py) -/

/-- The grid record as `proj` sees it: dimension plus the per-axis payload the
function would slice in the non-trivial branch. -/
structure ProjGrid where
  dim : ℕ
  min : List ℚ
  max : List ℚ
  N : List ℕ
  deriving DecidableEq, Repr

/-- Input checking and trivial-projection branch of `proj` (lines 46-53):
raise when `len(dimsToRemove) != g.dim`; when `count_nonzero(logical_not(
dimsToRemove)) == g.dim` (every entry is zero), warn and return the inputs
unchanged.  The non-trivial projection work (delegated by the source to
`projSingle`) is taken as a parameter `rest` so the guard logic is isolated
exactly as in the source. -/
def proj (rest : ProjGrid → List ℚ → List ℚ → Except String (ProjGrid × List ℚ))
    (g : ProjGrid) (data : List ℚ) (dimsToRemove : List ℚ) :
    Except String (ProjGrid × List ℚ) :=
  if dimsToRemove.length ≠ g.dim then
    Except.error ("Dimensions are inconsistent!")
  else if dimsToRemove.countP (fun x => decide (x = 0)) = g.dim then
    Except.ok (g, data)
  else
    rest g data dimsToRemove

/-! ## Helper lemmas -/

/-- A left fold of `max` lands on its seed or on a list element. -/
lemma foldl_max_mem : ∀ (xs : List ℚ) (x : ℚ), xs.foldl max x ∈ x :: xs := by
  intro xs
  induction xs with
  | nil => intro x; simp
  | cons a as ih =>
    intro x
    rw [List.foldl_cons]
    have h := ih (max x a)
    rcases List.mem_cons.mp h with h1 | h1
    · rw [h1]
      rcases max_choice x a with hc | hc <;> rw [hc] <;> simp
    · simp [h1]

/-- A left fold of `max` bounds the seed and every list element. -/
lemma le_foldl_max : ∀ (xs : List ℚ) (x : ℚ), ∀ y ∈ x :: xs, y ≤ xs.foldl max x := by
  intro xs
  induction xs with
  | nil =>
    intro x y hy
    rw [List.mem_singleton] at hy
    rw [hy]
    simp
  | cons a as ih =>
    intro x y hy
    rw [List.foldl_cons]
    have hseed : max x a ≤ as.foldl max (max x a) :=
      ih (max x a) (max x a) (List.mem_cons_self _ _)
    rcases List.mem_cons.mp hy with h1 | h1
    · rw [h1]
      exact le_trans (le_max_left x a) hseed
    · rcases List.mem_cons.mp h1 with h2 | h2
      · rw [h2]
        exact le_trans (le_max_right x a) hseed
      · exact ih (max x a) y (List.mem_cons_of_mem _ h2)

/-- Taking the elementwise minimum with the same list a second time changes
nothing. -/
lemma zipWith_min_right_idem :
    ∀ (y p : List ℚ), List.zipWith min (List.zipWith min y p) p = List.zipWith min y p := by
  intro y
  induction y with
  | nil => intro p; simp
  | cons a as ih =>
    intro p
    cases p with
    | nil => simp
    | cons b bs => simp [min_assoc, ih bs]

/-! ## Claim theorems -/

/-- C1: for every time `t`, state `y` and scheme bundle `S`,
`termLaxFriedrichs` builds `derivC[d] = 0.5*(derivL[d] + derivR[d])` from the
one-sided derivatives of `derivFunc`, evaluates the Hamiltonian at `derivC`
and the dissipation at `(derivL, derivR)`, and returns `-(ham - diss)` in
vector form together with the `stepBound` of `dissFunc`. -/
theorem C1_termLaxFriedrichs_centered_update {E : Type} (t : ℚ) (yv : List ℚ)
    (S : LFScheme E) :
    (termLaxFriedrichs t (.single yv) (.single S)).map (fun r => (r.1, r.2.1)) =
      some (
        let derivs := (List.range S.grid.dim).map (fun i => S.derivFunc S.grid yv i)
        let derivL := derivs.map Prod.fst
        let derivR := derivs.map Prod.snd
        let derivC := derivs.map
          (fun p => List.zipWith (fun a b => (1/2 : ℚ) * (a + b)) p.1 p.2)
        let ham := (S.hamFunc t yv derivC S.extra).1
        let extra2 := (S.hamFunc t yv derivC S.extra).2.getD S.extra
        let dres := S.dissFunc t yv derivL derivR extra2
        ((List.zipWith (fun a b => a - b) ham dres.1).map (fun x => -x), dres.2)) := by
  rfl

/-- C7: with cell-vector (list) inputs for `y` and/or `schemeData`, every
element other than the first is ignored: the returned `ydot` and `stepBound`
are those of the call on the first elements alone. -/
theorem C7_termLaxFriedrichs_cell_first_only {E : Type} (t : ℚ)
    (y0 : List ℚ) (ys : List (List ℚ)) (S0 : LFScheme E) (Ss : List (LFScheme E)) :
    ((termLaxFriedrichs t (.cell (y0 :: ys)) (.cell (S0 :: Ss))).map
        (fun r => (r.1, r.2.1)) =
      (termLaxFriedrichs t (.single y0) (.single S0)).map (fun r => (r.1, r.2.1)))
    ∧ ((termLaxFriedrichs t (.cell (y0 :: ys)) (.single S0)).map
        (fun r => (r.1, r.2.1)) =
      (termLaxFriedrichs t (.single y0) (.single S0)).map (fun r => (r.1, r.2.1)))
    ∧ ((termLaxFriedrichs t (.single y0) (.cell (S0 :: Ss))).map
        (fun r => (r.1, r.2.1)) =
      (termLaxFriedrichs t (.single y0) (.single S0)).map (fun r => (r.1, r.2.1))) := by
  exact ⟨rfl, rfl, rfl⟩

/-- C2: in the non-generateAll path of `upwindFirstWENO5a` the default
epsilon selector is `maxOverGrid`: epsilon is `1e-6` times the maximum of
the squared first divided differences over the whole grid plus `1e-99`, and
the left-biased and right-biased approximations share that epsilon. -/
theorem C2_weno5a_default_epsilon (D1 : List ℚ) (h : D1 ≠ []) :
    ∃ m, m ∈ D1.map (fun x => x ^ 2) ∧ (∀ y ∈ D1.map (fun x => x ^ 2), y ≤ m) ∧
      wenoEpsilons epsilonCalculationMethod D1 =
        some ((1 / 1000000) * m + 1 / 10 ^ 99, (1 / 1000000) * m + 1 / 10 ^ 99) := by
  cases hd : D1 with
  | nil => exact absurd hd h
  | cons x xs =>
    refine ⟨(xs.map (fun x => x ^ 2)).foldl max (x ^ 2), ?_, ?_, ?_⟩
    · simpa using foldl_max_mem (xs.map (fun x => x ^ 2)) (x ^ 2)
    · simpa using le_foldl_max (xs.map (fun x => x ^ 2)) (x ^ 2)
    · rfl

/-- C2 witness: the theorem applied at the concrete grid `D1 = [1, -3]`. -/
theorem C2_weno5a_default_epsilon_witness :
    ∃ m, m ∈ ([1, -3] : List ℚ).map (fun x => x ^ 2) ∧
      (∀ y ∈ ([1, -3] : List ℚ).map (fun x => x ^ 2), y ≤ m) ∧
      wenoEpsilons epsilonCalculationMethod [1, -3] =
        some ((1 / 1000000) * m + 1 / 10 ^ 99, (1 / 1000000) * m + 1 / 10 ^ 99) :=
  C2_weno5a_default_epsilon [1, -3] (by decide)

/-- C3: the WENO5 derivative is the nonlinear weighted combination of the
three candidate ENO approximations: with linear weights `(0.1, 0.6, 0.3)` on
the left and `(0.3, 0.6, 0.1)` on the right, `alpha_k = w_k/(beta_k +
epsilon)^2` and the result is `Sum_k omega_k * d_k` with
`omega_k = alpha_k / Sum alpha`. -/
theorem C3_weno_weighted_combination (d0 d1 d2 s0 s1 s2 eps : ℚ) :
    (wenoDerivL d0 d1 d2 s0 s1 s2 eps =
      (let a1 := (1/10 : ℚ) / (s0 + eps) ^ 2
       let a2 := (6/10 : ℚ) / (s1 + eps) ^ 2
       let a3 := (3/10 : ℚ) / (s2 + eps) ^ 2
       (a1 / (a1 + a2 + a3)) * d0 + (a2 / (a1 + a2 + a3)) * d1 +
         (a3 / (a1 + a2 + a3)) * d2))
    ∧ (wenoDerivR d0 d1 d2 s0 s1 s2 eps =
      (let a1 := (3/10 : ℚ) / (s0 + eps) ^ 2
       let a2 := (6/10 : ℚ) / (s1 + eps) ^ 2
       let a3 := (1/10 : ℚ) / (s2 + eps) ^ 2
       (a1 / (a1 + a2 + a3)) * d0 + (a2 / (a1 + a2 + a3)) * d1 +
         (a3 / (a1 + a2 + a3)) * d2)) := by
  constructor <;>
    · simp only [wenoDerivL, wenoDerivR, weightWENO, weightL, weightR,
        List.headI, List.tail_cons]
      ring

/-- C4: the claim says a specification lacking `min`/`max` gets defaults
`min = 0`, `max = 1` and succeeds; the code instead fills the `max` default
from `defaultMin` (process_grid.py line 155), so a specification giving only
`dim` and `N` fails the `max > min` validation. -/
theorem C4_processGrid_default_max_error :
    processGrid ⟨some 1, none, none, some (.scal 11), none⟩ =
      Except.error
        ("max bound must be strictly greater than min bound in all dimensions") := by
  rfl

/-- C5: the claim says a specification supplying only `dx` gets `N` derived
from it; the code never derives `N` in that path and crashes with
`AttributeError` when building `vs` (process_grid.py line 206), here at the
specification `dim = 1`, `min = 0`, `max = 1`, `dx = 1`. -/
theorem C5_processGrid_dx_only_error :
    processGrid ⟨some 1, some (.scal 0), some (.scal 1), none, some (.scal 1)⟩ =
      Except.error ("AttributeError: Bundle object has no attribute N") := by
  rfl

/-- C6: under `minVOverTime` the solver replaces `y` by the elementwise
minimum of the integrated value and the value saved immediately before the
step, and applying that combination twice with the same predecessor equals
applying it once. -/
theorem C6_minVOverTime_idempotent :
    (∀ (integrate : List ℚ → List ℚ) (y : List ℚ),
        hjiInnerStepMinV integrate y = List.zipWith min (integrate y) y)
    ∧ (∀ (y yLast : List ℚ),
        minVOverTimeCombine (minVOverTimeCombine y yLast) yLast =
          minVOverTimeCombine y yLast) := by
  constructor
  · intro integrate y; rfl
  · intro y yLast
    exact zipWith_min_right_idem y yLast

/-- C8: the claim says a non-positive dimension is fatal while `dim > 5`
only warns; the code rejects only `dim < 0` (process_grid.py line 133), so
`dim = 0` is accepted, and `dim = 6` (with explicit `max` and `N`) is also
accepted after a warning. -/
theorem C8_processGrid_dim_check :
    (processGrid ⟨some 0, none, none, none, none⟩ =
      Except.ok ⟨0, [], [], [], [], [], []⟩)
    ∧ ((processGrid ⟨some 6, none, some (.scal 1), some (.scal 3), none⟩).isOk = true)
    ∧ (processGrid ⟨some (-1), none, none, none, none⟩ =
      Except.error ("Grid dimension must be positive")) := by
  refine ⟨rfl, rfl, rfl⟩

/-- C9: `HJIPDE_solve` rejects a time vector with fewer than two elements
with a specification error before invoking the integrator (the result does
not depend on the integrator at all). -/
theorem C9_hji_solve_short_tau_error (integratorFunc : ℚ → List ℚ → List ℚ)
    (data0 tau : List ℚ) (h : tau.length < 2) :
    HJIPDE_solve integratorFunc data0 tau =
      Except.error ("Time vector must have at least two elements!") := by
  unfold HJIPDE_solve
  simp [h]

/-- C9 witness: the theorem applied at `tau = [0]`. -/
theorem C9_hji_solve_short_tau_error_witness :
    HJIPDE_solve (fun _ y => y) [] [0] =
      Except.error ("Time vector must have at least two elements!") :=
  C9_hji_solve_short_tau_error (fun _ y => y) [] [0] (by decide)

/-- C10: when `dimsToRemove` has length `g.dim` and contains only zeros,
`proj` returns the input grid and data unchanged (after only a warning),
whatever the non-trivial projection path would do. -/
theorem C10_proj_identity
    (rest : ProjGrid → List ℚ → List ℚ → Except String (ProjGrid × List ℚ))
    (g : ProjGrid) (data dims : List ℚ)
    (hlen : dims.length = g.dim) (hzero : ∀ x ∈ dims, x = 0) :
    proj rest g data dims = Except.ok (g, data) := by
  unfold proj
  have h2 : dims.countP (fun x => decide (x = 0)) = g.dim := by
    rw [← hlen]
    exact List.countP_eq_length.mpr (fun a ha => by simpa using hzero a ha)
  simp [hlen, h2]

/-- C10 witness: the theorem applied at a concrete 2-D grid with
`dimsToRemove = [0, 0]`. -/
theorem C10_proj_identity_witness :
    proj (fun _ _ _ => Except.error ("unreached"))
        ⟨2, [0, 0], [1, 1], [5, 5]⟩ [1, 2] [0, 0] =
      Except.ok (⟨2, [0, 0], [1, 1], [5, 5]⟩, [1, 2]) :=
  C10_proj_identity (fun _ _ _ => Except.error ("unreached"))
    ⟨2, [0, 0], [1, 1], [5, 5]⟩ [1, 2] [0, 0] (by decide) (by decide)

end LevelSetPy
